import Mathlib

/-!
# dnodeMgmt: the node-local vnode lifecycle manager

A shallow embedding of `src/dnode/src/dnodeMgmt.c`.

* The process-wide globals (`terrno`, `tsDnodeVnodesHash`, the dispatch table
  `dnodeProcessMgmtMsgFp`) are the fields of `DnodeState`; every C function is a
  function on that state.
* Calls to collaborators that live outside the file (storage engine, worker pools,
  RPC transport) are appended, in program order, to `DnodeState.trace`; so are the
  stores to a vnode's `status` and the atomic updates of its `refCount`.  What a
  collaborator returns is read from `Env`, as a function of the trace so far.
* A `SVnodeObj *` is a pointer into the registry: it is modelled by the key of the
  entry it points to.  Dereferencing a pointer whose entry is gone has no meaning in C;
  the functions that do it return `none` there.
-/

namespace Dnode

/-- A `void *`; `NULL` is `0`. -/
abbrev Ptr := Nat

/-- The null pointer. -/
def NULL : Ptr := 0

/-- Modelled from the spec: the `TSDB_VN_STATUS_*` constants of `tstatus.h`, which is not
among the sources.  The data model lists `enum{NotReady, Master, Slave, Deleting}` and the
comment on `SVnodeObj.status` reads "master, slave, notready, deleting". -/
inductive VnStatus where
  | notReady
  | master
  | slave
  | deleting
  deriving DecidableEq, Repr

/-- The vnode object `SVnodeObj` (lines 30-42). -/
structure SVnodeObj where
  vgId : Int
  status : VnStatus
  refCount : Int
  version : Int
  wworker : Ptr
  rworker : Ptr
  wal : Ptr
  tsdb : Ptr
  replica : Ptr
  events : Ptr
  cq : Ptr
  deriving DecidableEq, Repr

/-- The fields of `STsdbCfg` that `dnodeCreateVnode` assigns (lines 217-225). -/
structure STsdbCfg where
  precision : Int
  tsdbId : Int
  maxTables : Int
  daysPerFile : Int
  minRowsPerFileBlock : Int
  maxRowsPerFileBlock : Int
  keep : Int
  maxCacheSize : Int
  deriving DecidableEq, Repr

/-- The `cfg` member of a create-vnode message, with the fields the file reads. -/
structure SVnodeCfg where
  vgId : Int
  maxSessions : Int
  daysPerFile : Int
  precision : Int
  deriving DecidableEq, Repr

/-- The payload of a CreateVnode or AlterVnode message. -/
structure SMDCreateVnodeMsg where
  vnode : Int
  cfg : SVnodeCfg
  deriving DecidableEq, Repr

/-- The payload of a DropVnode message. -/
structure SMDDropVnodeMsg where
  vgId : Int
  deriving DecidableEq, Repr

/-- What `rpcMsg->pCont` points to, as each handler's cast reads it. -/
structure MsgBody where
  createVnode : SMDCreateVnodeMsg
  dropVnode : SMDDropVnodeMsg
  deriving DecidableEq, Repr

/-- The RPC message header `SRpcMsg`, with the five fields the file names. -/
structure SRpcMsg where
  msgType : Nat
  pCont : Ptr
  contLen : Int
  code : Int
  handle : Ptr
  deriving DecidableEq, Repr

/-- One observable step: a call to a collaborator, a store to a vnode's `status`
(with the value it overwrites), or an atomic update of a vnode's `refCount` (with the
value the update returns).  The `pVnode` argument is the key of the entry pointed to. -/
inductive Event where
  | rpcSendResponse (rsp : SRpcMsg)
  | rpcFreeCont (pCont : Ptr)
  | tsdbOpenRepo (rootDir : String)
  | tsdbCreateRepo (rootDir : String) (cfg : STsdbCfg)
  | tsdbCloseRepo (repo : Ptr)
  | tsdbDropRepo (repo : Ptr)
  | dnodeAllocateWriteWorker
  | dnodeAllocateReadWorker
  | dnodeFreeReadWorker (worker : Ptr)
  | dnodeFreeWriteWorker (worker : Ptr)
  | storeStatus (pVnode : Int) (old : VnStatus) (new : VnStatus)
  | atomicAddFetch32 (pVnode : Int) (count : Int)
  | atomicSubFetch32 (pVnode : Int) (count : Int)
  deriving DecidableEq, Repr

/-- The function pointers stored in `dnodeProcessMgmtMsgFp`. -/
inductive MgmtHandler where
  | dnodeProcessCreateVnodeMsg
  | dnodeProcessDropVnodeMsg
  | dnodeProcessAlterVnodeMsg
  | dnodeProcessAlterStreamMsg
  | dnodeProcessConfigDnodeMsg
  deriving DecidableEq, Repr

/-- Modelled from the spec: the integer hash table of `ihash.h`, which is not among the
sources.  "A mapping from vgroup id to Vnode Object", "initialized with a fixed maximum
capacity", holding a copy of each inserted object under its key. -/
structure IntHash where
  maxSessions : Nat
  nodes : List (Int × SVnodeObj)
  deriving DecidableEq, Repr

/-- Everything the file takes from headers and collaborators that are not among the
sources: constants, configuration, and the results of external calls. -/
structure Env where
  TSDB_CODE_SUCCESS : Int
  TSDB_CODE_INVALID_VGROUP_ID : Int
  TSDB_CODE_INVALID_VNODE_STATUS : Int
  TSDB_CODE_MSG_NOT_PROCESSED : Int
  TSDB_MSG_TYPE_MD_CREATE_VNODE : Nat
  TSDB_MSG_TYPE_MD_DROP_VNODE : Nat
  TSDB_MSG_TYPE_MD_ALTER_VNODE : Nat
  TSDB_MSG_TYPE_MD_ALTER_STREAM : Nat
  TSDB_MSG_TYPE_MD_CONFIG_DNODE : Nat
  TSDB_MAX_VNODES : Nat
  tsDirectory : String
  /-- Embeds `htonl` of the C library, on the `int32_t` fields it is applied to. -/
  htonl : Int → Int
  /-- The pointer `tsdbOpenRepo` returns, and the value it leaves in `terrno` if it sets it. -/
  tsdbOpenRepo : List Event → String → Ptr × Option Int
  /-- The pointer `tsdbCreateRepo` returns, and the value it leaves in `terrno` if it sets it. -/
  tsdbCreateRepo : List Event → String → STsdbCfg → Ptr × Option Int
  /-- The value `tsdbCloseRepo` leaves in `terrno` if it sets it. -/
  tsdbCloseRepo : List Event → Ptr → Option Int
  /-- The value `tsdbDropRepo` leaves in `terrno` if it sets it. -/
  tsdbDropRepo : List Event → Ptr → Option Int
  dnodeAllocateWriteWorker : List Event → Ptr
  dnodeAllocateReadWorker : List Event → Ptr
  /-- Whether `taosInitIntHash` returns a table. -/
  taosInitIntHashOk : Bool
  /-- Whether `taosTmrInit` returns a timer controller. -/
  taosTmrInitOk : Bool
  /-- The indeterminate initial value of the local `SRpcMsg rsp` of `dnodeMgmt`. -/
  rspGarbage : SRpcMsg

/-- The globals of the file. -/
structure DnodeState where
  terrno : Int
  tsDnodeVnodesHash : IntHash
  dnodeProcessMgmtMsgFp : Nat → Option MgmtHandler
  trace : List Event

/-! ## Machine integers and formatting -/

/-- Two's-complement wrap of an integer into the `int32_t` range: the result of
`atomic_add_fetch_32` and `atomic_sub_fetch_32` (macros of `os.h`, which is not among the
sources; "atomic machine-word operations" on an "atomic int32"). -/
def wrap32 (x : Int) : Int := (x + 2147483648) % 4294967296 - 2147483648

/-- The characters `%d` prints for a natural number. -/
def decimalOfNat (n : Nat) : List Char :=
  if n = 0 then ['0'] else ((Nat.digits 10 n).reverse).map Nat.digitChar

/-- The characters `%d` prints for an integer. -/
def formatD (x : Int) : List Char :=
  if x < 0 then '-' :: decimalOfNat x.natAbs else decimalOfNat x.natAbs

/-- Embeds `sprintf(rootDir, "%s/vnode%d", tsDirectory, vgId)` (lines 163 and 228). -/
def vnodeRootDir (tsDirectory : String) (vgId : Int) : String :=
  tsDirectory ++ "/vnode" ++ String.mk (formatD vgId)

/-! ## The registry -/

/-- Modelled from the spec: `taosInitIntHash` of `ihash.h`; an empty table of the given
capacity. -/
def taosInitIntHash (maxSessions : Nat) : IntHash :=
  { maxSessions := maxSessions, nodes := [] }

/-- First node stored under a key. -/
def findNode : List (Int × SVnodeObj) → Int → Option SVnodeObj
  | [], _ => none
  | (k, d) :: rest, key => if k = key then some d else findNode rest key

/-- Modelled from the spec: `taosGetIntHashData` of `ihash.h`; "point lookup" of the
object stored under a key, `none` for the `NULL` it returns on a miss. -/
def taosGetIntHashData (h : IntHash) (key : Int) : Option SVnodeObj :=
  findNode h.nodes key

/-- Modelled from the spec: `taosAddIntHash` of `ihash.h`; "fails if the key already
exists", "insert beyond capacity fails", otherwise stores a copy under the key. -/
def taosAddIntHash (h : IntHash) (key : Int) (data : SVnodeObj) : IntHash :=
  if (taosGetIntHashData h key).isSome then h
  else if h.maxSessions ≤ h.nodes.length then h
  else { h with nodes := (key, data) :: h.nodes }

/-- The nodes that are not stored under a key. -/
def dropNodes : List (Int × SVnodeObj) → Int → List (Int × SVnodeObj)
  | [], _ => []
  | (k, d) :: rest, key =>
    if k = key then dropNodes rest key else (k, d) :: dropNodes rest key

/-- Modelled from the spec: `taosDeleteIntHash` of `ihash.h`; "unconditionally deletes
the entry" stored under the key. -/
def taosDeleteIntHash (h : IntHash) (key : Int) : IntHash :=
  { h with nodes := dropNodes h.nodes key }

/-- Overwrite the first node stored under a key. -/
def writeNode : List (Int × SVnodeObj) → Int → SVnodeObj → List (Int × SVnodeObj)
  | [], _, _ => []
  | (k, d) :: rest, key, v =>
    if k = key then (k, v) :: rest else (k, d) :: writeNode rest key v

/-- A store through a `SVnodeObj *`: the object the pointer designates is replaced. -/
def storeVnode (s : DnodeState) (pVnode : Int) (v : SVnodeObj) : DnodeState :=
  { s with tsDnodeVnodesHash :=
      { s.tsDnodeVnodesHash with nodes := writeNode s.tsDnodeVnodesHash.nodes pVnode v } }

/-- Append one event to the trace. -/
def emit (s : DnodeState) (e : Event) : DnodeState :=
  { s with trace := s.trace ++ [e] }

/-- A collaborator that may set `terrno`. -/
def setErrno (s : DnodeState) (e : Option Int) : DnodeState :=
  { s with terrno := e.getD s.terrno }

/-! ## Initialisation (lines 62-83 and 152-155) -/

/-- The assignment `dnodeProcessMgmtMsgFp[msgType] = fp`. -/
def setFp (table : Nat → Option MgmtHandler) (msgType : Nat) (fp : MgmtHandler) :
    Nat → Option MgmtHandler :=
  fun t => if t = msgType then some fp else table t

/-- The zero-initialised static array `dnodeProcessMgmtMsgFp`.  The array has
`TSDB_MSG_TYPE_MAX` slots and a message tag is assumed to index one of them; the table is
kept as a function on all tags, null wherever nothing was assigned. -/
def noHandlers : Nat → Option MgmtHandler := fun _ => none

/-- The globals before `dnodeInitMgmt`: static storage is zero, nothing has happened. -/
def initialState : DnodeState :=
  { terrno := 0
    tsDnodeVnodesHash := taosInitIntHash 0
    dnodeProcessMgmtMsgFp := noHandlers
    trace := [] }

/-- Embeds `dnodeOpenVnodes` (lines 152-155). -/
def dnodeOpenVnodes (env : Env) : Int := env.TSDB_CODE_SUCCESS

/-- Embeds `dnodeInitMgmt` (lines 62-83).  The timer calls are not modelled beyond whether the
timer controller could be created; a table that could not be created is kept as one that
holds nothing and accepts nothing. -/
def dnodeInitMgmt (env : Env) (s : DnodeState) : Int × DnodeState :=
  let table := setFp s.dnodeProcessMgmtMsgFp env.TSDB_MSG_TYPE_MD_CREATE_VNODE
    MgmtHandler.dnodeProcessCreateVnodeMsg
  let table := setFp table env.TSDB_MSG_TYPE_MD_DROP_VNODE MgmtHandler.dnodeProcessDropVnodeMsg
  let table := setFp table env.TSDB_MSG_TYPE_MD_ALTER_VNODE MgmtHandler.dnodeProcessAlterVnodeMsg
  let table := setFp table env.TSDB_MSG_TYPE_MD_ALTER_STREAM
    MgmtHandler.dnodeProcessAlterStreamMsg
  let table := setFp table env.TSDB_MSG_TYPE_MD_CONFIG_DNODE
    MgmtHandler.dnodeProcessConfigDnodeMsg
  let s := { s with dnodeProcessMgmtMsgFp := table }
  if env.taosInitIntHashOk = false then
    (-1, { s with tsDnodeVnodesHash := taosInitIntHash 0 })
  else
    let s := { s with tsDnodeVnodesHash := taosInitIntHash env.TSDB_MAX_VNODES }
    if env.taosTmrInitOk = false then (-1, s)
    else (dnodeOpenVnodes env, s)

/-! ## Borrowing a vnode (lines 112-150) -/

/-- The test of line 119: `status != MASTER && status == SLAVE`. -/
def invalidVnodeStatus (status : VnStatus) : Bool :=
  status != VnStatus.master && status == VnStatus.slave

/-- Embeds `dnodeGetVnode` (lines 112-126): the returned pointer (`none` for `NULL`) and the
state afterwards. -/
def dnodeGetVnode (env : Env) (vgId : Int) (s : DnodeState) : Option Int × DnodeState :=
  match taosGetIntHashData s.tsDnodeVnodesHash vgId with
  | none => (none, { s with terrno := env.TSDB_CODE_INVALID_VGROUP_ID })
  | some pVnode =>
    if invalidVnodeStatus pVnode.status then
      (none, { s with terrno := env.TSDB_CODE_INVALID_VNODE_STATUS })
    else
      let count := wrap32 (pVnode.refCount + 1)
      let s := storeVnode s vgId { pVnode with refCount := count }
      (some vgId, emit s (Event.atomicAddFetch32 vgId count))

/-- Embeds `dnodeGetVnodeStatus` (lines 128-130). -/
def dnodeGetVnodeStatus (pVnode : Int) (s : DnodeState) : Option VnStatus :=
  (taosGetIntHashData s.tsDnodeVnodesHash pVnode).map (fun v => v.status)

/-- Embeds `dnodeGetVnodeWworker` (lines 132-134). -/
def dnodeGetVnodeWworker (pVnode : Int) (s : DnodeState) : Option Ptr :=
  (taosGetIntHashData s.tsDnodeVnodesHash pVnode).map (fun v => v.wworker)

/-- Embeds `dnodeGetVnodeRworker` (lines 136-138). -/
def dnodeGetVnodeRworker (pVnode : Int) (s : DnodeState) : Option Ptr :=
  (taosGetIntHashData s.tsDnodeVnodesHash pVnode).map (fun v => v.rworker)

/-- Embeds `dnodeGetVnodeWal` (lines 140-142). -/
def dnodeGetVnodeWal (pVnode : Int) (s : DnodeState) : Option Ptr :=
  (taosGetIntHashData s.tsDnodeVnodesHash pVnode).map (fun v => v.wal)

/-- Embeds `dnodeGetVnodeTsdb` (lines 144-146). -/
def dnodeGetVnodeTsdb (pVnode : Int) (s : DnodeState) : Option Ptr :=
  (taosGetIntHashData s.tsDnodeVnodesHash pVnode).map (fun v => v.tsdb)

/-- Embeds `dnodeReleaseVnode` (lines 148-150). -/
def dnodeReleaseVnode (pVnode : Int) (s : DnodeState) : Option DnodeState :=
  match taosGetIntHashData s.tsDnodeVnodesHash pVnode with
  | none => none
  | some v =>
    let count := wrap32 (v.refCount - 1)
    let s := storeVnode s pVnode { v with refCount := count }
    some (emit s (Event.atomicSubFetch32 pVnode count))

/-! ## Opening and creating (lines 161-186 and 216-251) -/

/-- Embeds `dnodeOpenVnode` (lines 161-186): the returned code and the state afterwards. -/
def dnodeOpenVnode (env : Env) (vgId : Int) (s : DnodeState) : Int × DnodeState :=
  let rootDir := vnodeRootDir env.tsDirectory vgId
  let r := env.tsdbOpenRepo s.trace rootDir
  let pTsdb := r.1
  let s := setErrno (emit s (Event.tsdbOpenRepo rootDir)) r.2
  if pTsdb ≠ NULL then
    (s.terrno, s)
  else
    let wworker := env.dnodeAllocateWriteWorker s.trace
    let s := emit s Event.dnodeAllocateWriteWorker
    let rworker := env.dnodeAllocateReadWorker s.trace
    let s := emit s Event.dnodeAllocateReadWorker
    let vnodeObj : SVnodeObj :=
      { vgId := vgId
        status := VnStatus.notReady
        refCount := 1
        version := 0
        wworker := wworker
        rworker := rworker
        wal := NULL
        tsdb := pTsdb
        replica := NULL
        events := NULL
        cq := NULL }
    let s := { s with
      tsDnodeVnodesHash := taosAddIntHash s.tsDnodeVnodesHash vnodeObj.vgId vnodeObj }
    (env.TSDB_CODE_SUCCESS, s)

/-- Embeds `dnodeCreateVnode` (lines 216-251): the returned code and the state afterwards. -/
def dnodeCreateVnode (env : Env) (pVnodeCfg : SMDCreateVnodeMsg) (s : DnodeState) :
    Int × DnodeState :=
  let tsdbCfg : STsdbCfg :=
    { precision := pVnodeCfg.cfg.precision
      tsdbId := pVnodeCfg.vnode
      maxTables := pVnodeCfg.cfg.maxSessions
      daysPerFile := pVnodeCfg.cfg.daysPerFile
      minRowsPerFileBlock := -1
      maxRowsPerFileBlock := -1
      keep := -1
      maxCacheSize := -1 }
  let rootDir := vnodeRootDir env.tsDirectory pVnodeCfg.cfg.vgId
  let r := env.tsdbCreateRepo s.trace rootDir tsdbCfg
  let pTsdb := r.1
  let s := setErrno (emit s (Event.tsdbCreateRepo rootDir tsdbCfg)) r.2
  if pTsdb ≠ NULL then
    (s.terrno, s)
  else
    let wworker := env.dnodeAllocateWriteWorker s.trace
    let s := emit s Event.dnodeAllocateWriteWorker
    let rworker := env.dnodeAllocateReadWorker s.trace
    let s := emit s Event.dnodeAllocateReadWorker
    let vnodeObj : SVnodeObj :=
      { vgId := pVnodeCfg.cfg.vgId
        status := VnStatus.notReady
        refCount := 1
        version := 0
        wworker := wworker
        rworker := rworker
        wal := NULL
        tsdb := pTsdb
        replica := NULL
        events := NULL
        cq := NULL }
    let s := { s with
      tsDnodeVnodesHash := taosAddIntHash s.tsDnodeVnodesHash vnodeObj.vgId vnodeObj }
    (env.TSDB_CODE_SUCCESS, s)

/-! ## Teardown (lines 188-214 and 253-267) -/

/-- Embeds `dnodeCleanupVnode` (lines 188-214).  The local `v` mirrors the object behind
`pVnode`; every assignment is written through to the registry at once. -/
def dnodeCleanupVnode (env : Env) (pVnode : Int) (s : DnodeState) : Option DnodeState :=
  match taosGetIntHashData s.tsDnodeVnodesHash pVnode with
  | none => none
  | some v0 =>
    -- pVnode->status = TSDB_VN_STATUS_NOT_READY
    let v := { v0 with status := VnStatus.notReady }
    let s := emit (storeVnode s pVnode v) (Event.storeStatus pVnode v0.status VnStatus.notReady)
    -- count = atomic_sub_fetch_32(&pVnode->refCount, 1); the test on count has an empty body
    let count := wrap32 (v.refCount - 1)
    let v := { v with refCount := count }
    let s := emit (storeVnode s pVnode v) (Event.atomicSubFetch32 pVnode count)
    -- dnodeFreeReadWorker(pVnode->rworker); pVnode->rworker = NULL
    let s := emit s (Event.dnodeFreeReadWorker v.rworker)
    let v := { v with rworker := NULL }
    let s := storeVnode s pVnode v
    -- dnodeFreeWriteWorker(pVnode->wworker); pVnode->wworker = NULL
    let s := emit s (Event.dnodeFreeWriteWorker v.wworker)
    let v := { v with wworker := NULL }
    let s := storeVnode s pVnode v
    -- if (pVnode->tsdb) { tsdbCloseRepo(pVnode->tsdb); pVnode->tsdb = NULL; }
    let s :=
      if v.tsdb ≠ NULL then
        let e := env.tsdbCloseRepo s.trace v.tsdb
        let s := setErrno (emit s (Event.tsdbCloseRepo v.tsdb)) e
        storeVnode s pVnode { v with tsdb := NULL }
      else s
    -- taosDeleteIntHash(tsDnodeVnodesHash, pVnode->vgId)
    some { s with tsDnodeVnodesHash := taosDeleteIntHash s.tsDnodeVnodesHash v.vgId }

/-- Embeds `dnodeDropVnode` (lines 253-267). -/
def dnodeDropVnode (env : Env) (pVnode : Int) (s : DnodeState) : Option DnodeState :=
  match taosGetIntHashData s.tsDnodeVnodesHash pVnode with
  | none => none
  | some v0 =>
    -- pVnode->status = TSDB_VN_STATUS_NOT_READY
    let v := { v0 with status := VnStatus.notReady }
    let s := emit (storeVnode s pVnode v) (Event.storeStatus pVnode v0.status VnStatus.notReady)
    -- count = atomic_sub_fetch_32(&pVnode->refCount, 1); the test on count has an empty body
    let count := wrap32 (v.refCount - 1)
    let v := { v with refCount := count }
    let s := emit (storeVnode s pVnode v) (Event.atomicSubFetch32 pVnode count)
    -- if (pVnode->tsdb) { tsdbDropRepo(pVnode->tsdb); pVnode->tsdb = NULL; }
    let s :=
      if v.tsdb ≠ NULL then
        let e := env.tsdbDropRepo s.trace v.tsdb
        let s := setErrno (emit s (Event.tsdbDropRepo v.tsdb)) e
        storeVnode s pVnode { v with tsdb := NULL }
      else s
    dnodeCleanupVnode env pVnode s

/-! ## Message handlers (lines 269-343) -/

/-- The in-place decoding of a create-vnode payload (lines 273-276 and 311-314). -/
def decodeCreateVnodeMsg (env : Env) (pCreate : SMDCreateVnodeMsg) : SMDCreateVnodeMsg :=
  { vnode := env.htonl pCreate.vnode
    cfg :=
      { vgId := env.htonl pCreate.cfg.vgId
        maxSessions := env.htonl pCreate.cfg.maxSessions
        daysPerFile := env.htonl pCreate.cfg.daysPerFile
        precision := pCreate.cfg.precision } }

/-- Embeds `dnodeProcessCreateVnodeMsg` (lines 269-287). -/
def dnodeProcessCreateVnodeMsg (env : Env) (rpcMsg : SRpcMsg) (body : MsgBody)
    (s : DnodeState) : DnodeState :=
  let rpcRsp : SRpcMsg :=
    { handle := rpcMsg.handle, pCont := NULL, contLen := 0, code := 0, msgType := 0 }
  let pCreate := decodeCreateVnodeMsg env body.createVnode
  let r : Int × DnodeState :=
    match taosGetIntHashData s.tsDnodeVnodesHash pCreate.cfg.vgId with
    | some _ => (env.TSDB_CODE_SUCCESS, s)
    | none => dnodeCreateVnode env pCreate s
  let rpcRsp := { rpcRsp with code := r.1 }
  let s := emit r.2 (Event.rpcSendResponse rpcRsp)
  emit s (Event.rpcFreeCont rpcMsg.pCont)

/-- Embeds `dnodeProcessDropVnodeMsg` (lines 289-305). -/
def dnodeProcessDropVnodeMsg (env : Env) (rpcMsg : SRpcMsg) (body : MsgBody)
    (s : DnodeState) : Option DnodeState :=
  let rpcRsp : SRpcMsg :=
    { handle := rpcMsg.handle, pCont := NULL, contLen := 0, code := 0, msgType := 0 }
  let pDrop : SMDDropVnodeMsg := { vgId := env.htonl body.dropVnode.vgId }
  let r : Option (Int × DnodeState) :=
    match taosGetIntHashData s.tsDnodeVnodesHash pDrop.vgId with
    | some _ => (dnodeDropVnode env pDrop.vgId s).map (fun s => (env.TSDB_CODE_SUCCESS, s))
    | none => some (env.TSDB_CODE_INVALID_VGROUP_ID, s)
  r.map (fun r =>
    let rpcRsp := { rpcRsp with code := r.1 }
    let s := emit r.2 (Event.rpcSendResponse rpcRsp)
    emit s (Event.rpcFreeCont rpcMsg.pCont))

/-- Embeds `dnodeProcessAlterVnodeMsg` (lines 307-325). -/
def dnodeProcessAlterVnodeMsg (env : Env) (rpcMsg : SRpcMsg) (body : MsgBody)
    (s : DnodeState) : DnodeState :=
  let rpcRsp : SRpcMsg :=
    { handle := rpcMsg.handle, pCont := NULL, contLen := 0, code := 0, msgType := 0 }
  let pCreate := decodeCreateVnodeMsg env body.createVnode
  let r : Int × DnodeState :=
    match taosGetIntHashData s.tsDnodeVnodesHash pCreate.cfg.vgId with
    | some _ => (env.TSDB_CODE_SUCCESS, s)
    | none => dnodeCreateVnode env pCreate s
  let rpcRsp := { rpcRsp with code := r.1 }
  let s := emit r.2 (Event.rpcSendResponse rpcRsp)
  emit s (Event.rpcFreeCont rpcMsg.pCont)

/-- Embeds `dnodeProcessAlterStreamMsg` (lines 327-336): the body is commented out. -/
def dnodeProcessAlterStreamMsg (_pMsg : SRpcMsg) (s : DnodeState) : DnodeState := s

/-- Embeds `dnodeProcessConfigDnodeMsg` (lines 338-343): the body is commented out. -/
def dnodeProcessConfigDnodeMsg (_pMsg : SRpcMsg) (s : DnodeState) : DnodeState := s

/-- The call `(*dnodeProcessMgmtMsgFp[pMsg->msgType])(pMsg)` of line 99. -/
def callFp (env : Env) (fp : MgmtHandler) (pMsg : SRpcMsg) (body : MsgBody)
    (s : DnodeState) : Option DnodeState :=
  match fp with
  | MgmtHandler.dnodeProcessCreateVnodeMsg => some (dnodeProcessCreateVnodeMsg env pMsg body s)
  | MgmtHandler.dnodeProcessDropVnodeMsg => dnodeProcessDropVnodeMsg env pMsg body s
  | MgmtHandler.dnodeProcessAlterVnodeMsg => some (dnodeProcessAlterVnodeMsg env pMsg body s)
  | MgmtHandler.dnodeProcessAlterStreamMsg => some (dnodeProcessAlterStreamMsg pMsg s)
  | MgmtHandler.dnodeProcessConfigDnodeMsg => some (dnodeProcessConfigDnodeMsg pMsg s)

/-! ## The dispatcher (lines 95-110) -/

/-- Embeds `dnodeMgmt` (lines 95-110). -/
def dnodeMgmt (env : Env) (pMsg : SRpcMsg) (body : MsgBody) (s : DnodeState) :
    Option DnodeState :=
  let s := { s with terrno := 0 }
  let handled : Option DnodeState :=
    match s.dnodeProcessMgmtMsgFp pMsg.msgType with
    | some fp => callFp env fp pMsg body s
    | none => some { s with terrno := env.TSDB_CODE_MSG_NOT_PROCESSED }
  handled.map (fun s =>
    let rsp : SRpcMsg :=
      { env.rspGarbage with handle := pMsg.handle, code := s.terrno, pCont := NULL }
    let s := emit s (Event.rpcSendResponse rsp)
    emit s (Event.rpcFreeCont pMsg.pCont))

/-! ## Reading a trace -/

/-- Number of replies sent to a transport handle. -/
def repliesTo (handle : Ptr) : List Event → Nat
  | [] => 0
  | Event.rpcSendResponse rsp :: rest =>
    (if rsp.handle = handle then 1 else 0) + repliesTo handle rest
  | _ :: rest => repliesTo handle rest

/-- Number of releases of a message buffer. -/
def releasesOf (pCont : Ptr) : List Event → Nat
  | [] => 0
  | Event.rpcFreeCont p :: rest => (if p = pCont then 1 else 0) + releasesOf pCont rest
  | _ :: rest => releasesOf pCont rest

/-- The codes of the replies in a trace, in order. -/
def replyCodes : List Event → List Int
  | [] => []
  | Event.rpcSendResponse rsp :: rest => rsp.code :: replyCodes rest
  | _ :: rest => replyCodes rest

/-- The values the atomic decrements of one vnode's `refCount` returned, in order. -/
def refCountsAfterSub (pVnode : Int) : List Event → List Int
  | [] => []
  | Event.atomicSubFetch32 p count :: rest =>
    if p = pVnode then count :: refCountsAfterSub pVnode rest else refCountsAfterSub pVnode rest
  | _ :: rest => refCountsAfterSub pVnode rest

/-- Replays the stores to one vnode's `status`, starting from `cur`, and lists the status
the vnode has at each call of `tsdbDropRepo`. -/
def statusAtRepoDrops (pVnode : Int) (cur : VnStatus) : List Event → List VnStatus
  | [] => []
  | Event.storeStatus p _ new :: rest =>
    statusAtRepoDrops pVnode (if p = pVnode then new else cur) rest
  | Event.tsdbDropRepo _ :: rest => cur :: statusAtRepoDrops pVnode cur rest
  | _ :: rest => statusAtRepoDrops pVnode cur rest

/-- The handles passed to `tsdbCloseRepo`, in order. -/
def repoCloses : List Event → List Ptr
  | [] => []
  | Event.tsdbCloseRepo repo :: rest => repo :: repoCloses rest
  | _ :: rest => repoCloses rest

/-- The handles passed to `tsdbDropRepo`, in order. -/
def repoDrops : List Event → List Ptr
  | [] => []
  | Event.tsdbDropRepo repo :: rest => repo :: repoDrops rest
  | _ :: rest => repoDrops rest

/-- The workers passed to `dnodeFreeReadWorker`, in order. -/
def freedReadWorkers : List Event → List Ptr
  | [] => []
  | Event.dnodeFreeReadWorker w :: rest => w :: freedReadWorkers rest
  | _ :: rest => freedReadWorkers rest

/-- The workers passed to `dnodeFreeWriteWorker`, in order. -/
def freedWriteWorkers : List Event → List Ptr
  | [] => []
  | Event.dnodeFreeWriteWorker w :: rest => w :: freedWriteWorkers rest
  | _ :: rest => freedWriteWorkers rest

/-- The calls to the storage engine and to the worker pools in a trace, in order. -/
def storageAndWorkerCalls : List Event → List Event
  | [] => []
  | Event.rpcSendResponse _ :: rest => storageAndWorkerCalls rest
  | Event.rpcFreeCont _ :: rest => storageAndWorkerCalls rest
  | Event.storeStatus _ _ _ :: rest => storageAndWorkerCalls rest
  | Event.atomicAddFetch32 _ _ :: rest => storageAndWorkerCalls rest
  | Event.atomicSubFetch32 _ _ :: rest => storageAndWorkerCalls rest
  | e :: rest => e :: storageAndWorkerCalls rest

/-- Number of calls of `tsdbCreateRepo` in a trace. -/
def repoCreates : List Event → Nat
  | [] => 0
  | Event.tsdbCreateRepo _ _ :: rest => 1 + repoCreates rest
  | _ :: rest => repoCreates rest

/-- One step of a caller that borrows a vnode: a `dnodeGetVnode` on its vgroup id, or a
`dnodeReleaseVnode` on the handle a `dnodeGetVnode` returned. -/
inductive BorrowOp where
  | get
  | release
  deriving DecidableEq, Repr

/-- Runs a sequence of borrows and releases of one vgroup id.  `held` are the handles
the caller has got and not yet released; a release gives back one of them.  The result is
`none` as soon as a `dnodeGetVnode` returns no handle, or a release is asked for while no
handle is held, or the handle released designates no vnode. -/
def runBorrowOps (env : Env) (vgId : Int) :
    List BorrowOp → List Int → DnodeState → Option (List Int × DnodeState)
  | [], held, s => some (held, s)
  | BorrowOp.get :: rest, held, s =>
    match dnodeGetVnode env vgId s with
    | (some pVnode, s1) => runBorrowOps env vgId rest (pVnode :: held) s1
    | (none, _) => none
  | BorrowOp.release :: rest, held, s =>
    match held with
    | [] => none
    | pVnode :: held1 =>
      match dnodeReleaseVnode pVnode s with
      | some s1 => runBorrowOps env vgId rest held1 s1
      | none => none

/-- Whether a sequence of borrow steps, started with `held` handles outstanding, releases
only handles that are held and ends with none outstanding: an interleaving of
get/release pairs, each release after its get. -/
def paired : Nat → List BorrowOp → Bool
  | held, [] => held == 0
  | held, BorrowOp.get :: rest => paired (held + 1) rest
  | 0, BorrowOp.release :: _ => false
  | held + 1, BorrowOp.release :: rest => paired held rest

/-! ## A concrete configuration -/

/-- Byte swap of a 32-bit word: `htonl` on a little-endian host. -/
def bswap32 (x : Int) : Int :=
  let u := (x % 4294967296).toNat
  wrap32 (Int.ofNat (u % 256 * 16777216 + u / 256 % 256 * 65536 + u / 65536 % 256 * 256
    + u / 16777216 % 256))

/-- A storage engine that fails every open and create with code `-7`, on a little-endian
host; the constants are pairwise distinct and the success code is zero. -/
def failingEnv : Env :=
  { TSDB_CODE_SUCCESS := 0
    TSDB_CODE_INVALID_VGROUP_ID := 10
    TSDB_CODE_INVALID_VNODE_STATUS := 11
    TSDB_CODE_MSG_NOT_PROCESSED := 12
    TSDB_MSG_TYPE_MD_CREATE_VNODE := 21
    TSDB_MSG_TYPE_MD_DROP_VNODE := 23
    TSDB_MSG_TYPE_MD_ALTER_VNODE := 25
    TSDB_MSG_TYPE_MD_ALTER_STREAM := 27
    TSDB_MSG_TYPE_MD_CONFIG_DNODE := 29
    TSDB_MAX_VNODES := 8
    tsDirectory := "/var/lib/taos"
    htonl := bswap32
    tsdbOpenRepo := fun _ _ => (NULL, some (-7))
    tsdbCreateRepo := fun _ _ _ => (NULL, some (-7))
    tsdbCloseRepo := fun _ _ => none
    tsdbDropRepo := fun _ _ => none
    dnodeAllocateWriteWorker := fun _ => 501
    dnodeAllocateReadWorker := fun _ => 502
    taosInitIntHashOk := true
    taosTmrInitOk := true
    rspGarbage := { msgType := 170, pCont := 3735928559, contLen := -1, code := 99, handle := 1 } }

/-- The same configuration with a storage engine that opens and creates every
repository, returning the handle `900` and leaving `terrno` alone. -/
def workingEnv : Env :=
  { failingEnv with
    tsdbOpenRepo := fun _ _ => (900, none)
    tsdbCreateRepo := fun _ _ _ => (900, none) }

/-- A vnode object for vgroup 7 with the given status and reference count. -/
def vnode7 (status : VnStatus) (refCount : Int) : SVnodeObj :=
  { vgId := 7
    status := status
    refCount := refCount
    version := 0
    wworker := 501
    rworker := 502
    wal := NULL
    tsdb := 900
    replica := NULL
    events := NULL
    cq := NULL }

/-- The state after `dnodeInitMgmt` with nothing registered. -/
def emptyState : DnodeState := (dnodeInitMgmt failingEnv initialState).2

/-- The state after `dnodeInitMgmt` with one vnode, for vgroup 7, registered. -/
def state7 (status : VnStatus) (refCount : Int) : DnodeState :=
  { emptyState with
    tsDnodeVnodesHash := { maxSessions := 8, nodes := [(7, vnode7 status refCount)] } }

/-- A message body whose create view names vgroup 7 and whose drop view names vgroup 7,
in network byte order. -/
def body7 : MsgBody :=
  { createVnode :=
      { vnode := bswap32 1
        cfg := { vgId := bswap32 7, maxSessions := bswap32 100, daysPerFile := bswap32 10,
                 precision := 0 } }
    dropVnode := { vgId := bswap32 7 } }

/-- An inbound message header with the given tag, buffer `4096` and transport handle `77`. -/
def inbound (msgType : Nat) : SRpcMsg :=
  { msgType := msgType, pCont := 4096, contLen := 20, code := 0, handle := 77 }

/-- A message body whose create view and drop view name vgroup 99, in network byte
order. -/
def body99 : MsgBody :=
  { createVnode :=
      { vnode := bswap32 1
        cfg := { vgId := bswap32 99, maxSessions := bswap32 100, daysPerFile := bswap32 10,
                 precision := 0 } }
    dropVnode := { vgId := bswap32 99 } }

/-! ## Registry lemmas -/

theorem findNode_writeNode_same (l : List (Int × SVnodeObj)) (p : Int) (v : SVnodeObj) :
    findNode (writeNode l p v) p = (findNode l p).map (fun _ => v) := by
  induction l with
  | nil => simp [writeNode, findNode]
  | cons n rest ih =>
    obtain ⟨k, d⟩ := n
    by_cases h : k = p
    · simp [writeNode, findNode, h]
    · simp [writeNode, findNode, h, ih]

theorem findNode_writeNode_other (l : List (Int × SVnodeObj)) (p k : Int) (v : SVnodeObj)
    (hk : k ≠ p) : findNode (writeNode l p v) k = findNode l k := by
  induction l with
  | nil => simp [writeNode, findNode]
  | cons n rest ih =>
    obtain ⟨k0, d⟩ := n
    by_cases h : k0 = p
    · have h2 : ¬ k0 = k := fun e => hk (e ▸ h)
      simp only [writeNode, if_pos h, findNode, if_neg h2]
    · by_cases h2 : k0 = k
      · simp only [writeNode, if_neg h, findNode, if_pos h2]
      · simp only [writeNode, if_neg h, findNode, if_neg h2, ih]

theorem writeNode_writeNode (l : List (Int × SVnodeObj)) (p : Int) (a b : SVnodeObj) :
    writeNode (writeNode l p a) p b = writeNode l p b := by
  induction l with
  | nil => simp [writeNode]
  | cons n rest ih =>
    obtain ⟨k, d⟩ := n
    by_cases h : k = p
    · simp only [writeNode, if_pos h]
    · simp only [writeNode, if_neg h, ih]

theorem dropNodes_writeNode (l : List (Int × SVnodeObj)) (p : Int) (v : SVnodeObj) :
    dropNodes (writeNode l p v) p = dropNodes l p := by
  induction l with
  | nil => simp [writeNode]
  | cons n rest ih =>
    obtain ⟨k, d⟩ := n
    by_cases h : k = p
    · simp only [writeNode, if_pos h, dropNodes]
    · simp only [writeNode, if_neg h, dropNodes, ih]

theorem findNode_dropNodes_same (l : List (Int × SVnodeObj)) (p : Int) :
    findNode (dropNodes l p) p = none := by
  induction l with
  | nil => simp [findNode, dropNodes]
  | cons n rest ih =>
    obtain ⟨k, d⟩ := n
    by_cases h : k = p
    · simp only [dropNodes, if_pos h, ih]
    · simp only [dropNodes, if_neg h, findNode, ih]

theorem findNode_dropNodes_other (l : List (Int × SVnodeObj)) (p k : Int) (hk : k ≠ p) :
    findNode (dropNodes l p) k = findNode l k := by
  induction l with
  | nil => simp [findNode, dropNodes]
  | cons n rest ih =>
    obtain ⟨k0, d⟩ := n
    by_cases h : k0 = p
    · have h2 : ¬ k0 = k := fun e => hk (e ▸ h)
      simp only [dropNodes, if_pos h, findNode, if_neg h2, ih]
    · by_cases h2 : k0 = k
      · simp only [dropNodes, if_neg h, findNode, if_pos h2]
      · simp only [dropNodes, if_neg h, findNode, if_neg h2, ih]

/-! ## Teardown, step by step -/

/-- The state `dnodeCleanupVnode` returns for a pointer to a registered vnode. -/
theorem dnodeCleanupVnode_eq (env : Env) (p : Int) (s : DnodeState) (v0 : SVnodeObj)
    (hv : taosGetIntHashData s.tsDnodeVnodesHash p = some v0) :
    dnodeCleanupVnode env p s = some
      { terrno :=
          if v0.tsdb ≠ NULL then
            (env.tsdbCloseRepo
              (s.trace ++ [Event.storeStatus p v0.status VnStatus.notReady,
                Event.atomicSubFetch32 p (wrap32 (v0.refCount - 1)),
                Event.dnodeFreeReadWorker v0.rworker,
                Event.dnodeFreeWriteWorker v0.wworker]) v0.tsdb).getD s.terrno
          else s.terrno
        tsDnodeVnodesHash :=
          taosDeleteIntHash
            { s.tsDnodeVnodesHash with
              nodes := writeNode s.tsDnodeVnodesHash.nodes p
                { v0 with status := VnStatus.notReady, refCount := wrap32 (v0.refCount - 1),
                          rworker := NULL, wworker := NULL, tsdb := NULL } }
            v0.vgId
        dnodeProcessMgmtMsgFp := s.dnodeProcessMgmtMsgFp
        trace := s.trace ++ [Event.storeStatus p v0.status VnStatus.notReady,
          Event.atomicSubFetch32 p (wrap32 (v0.refCount - 1)),
          Event.dnodeFreeReadWorker v0.rworker,
          Event.dnodeFreeWriteWorker v0.wworker]
          ++ (if v0.tsdb ≠ NULL then [Event.tsdbCloseRepo v0.tsdb] else []) } := by
  unfold dnodeCleanupVnode
  rw [hv]
  by_cases ht : v0.tsdb = NULL
  · simp [ht, emit, storeVnode, setErrno, taosDeleteIntHash, writeNode_writeNode]
  · simp [ht, emit, storeVnode, setErrno, taosDeleteIntHash, writeNode_writeNode]

/-- The state `dnodeDropVnode` returns for a pointer to a registered vnode. -/
theorem dnodeDropVnode_eq (env : Env) (p : Int) (s : DnodeState) (v0 : SVnodeObj)
    (hv : taosGetIntHashData s.tsDnodeVnodesHash p = some v0) :
    dnodeDropVnode env p s = some
      { terrno :=
          if v0.tsdb ≠ NULL then
            (env.tsdbDropRepo
              (s.trace ++ [Event.storeStatus p v0.status VnStatus.notReady,
                Event.atomicSubFetch32 p (wrap32 (v0.refCount - 1))]) v0.tsdb).getD s.terrno
          else s.terrno
        tsDnodeVnodesHash :=
          taosDeleteIntHash
            { s.tsDnodeVnodesHash with
              nodes := writeNode s.tsDnodeVnodesHash.nodes p
                { v0 with status := VnStatus.notReady,
                          refCount := wrap32 (wrap32 (v0.refCount - 1) - 1),
                          rworker := NULL, wworker := NULL, tsdb := NULL } }
            v0.vgId
        dnodeProcessMgmtMsgFp := s.dnodeProcessMgmtMsgFp
        trace := s.trace ++ [Event.storeStatus p v0.status VnStatus.notReady,
          Event.atomicSubFetch32 p (wrap32 (v0.refCount - 1))]
          ++ (if v0.tsdb ≠ NULL then [Event.tsdbDropRepo v0.tsdb] else [])
          ++ [Event.storeStatus p VnStatus.notReady VnStatus.notReady,
            Event.atomicSubFetch32 p (wrap32 (wrap32 (v0.refCount - 1) - 1)),
            Event.dnodeFreeReadWorker v0.rworker,
            Event.dnodeFreeWriteWorker v0.wworker] } := by
  unfold dnodeDropVnode
  rw [hv]
  have hf : findNode s.tsDnodeVnodesHash.nodes p = some v0 := hv
  by_cases ht : v0.tsdb = NULL
  · simp only [ht, ne_eq, not_true_eq_false, if_false]
    rw [dnodeCleanupVnode_eq env p _
      { v0 with status := VnStatus.notReady, refCount := wrap32 (v0.refCount - 1) }
      (by simp [emit, storeVnode, taosGetIntHashData, writeNode_writeNode,
            findNode_writeNode_same, hf, ht])]
    simp [ht, emit, storeVnode, taosDeleteIntHash, writeNode_writeNode]
  · simp only [ne_eq, ht, not_false_eq_true, if_true]
    rw [dnodeCleanupVnode_eq env p _
      { v0 with status := VnStatus.notReady, refCount := wrap32 (v0.refCount - 1),
                tsdb := NULL }
      (by simp [emit, storeVnode, setErrno, taosGetIntHashData, writeNode_writeNode,
            findNode_writeNode_same, hf])]
    simp [emit, storeVnode, setErrno, taosDeleteIntHash, writeNode_writeNode]

/-! ## Borrowing, rendering and insertion lemmas -/

/-- The events `dnodeCleanupVnode` appends for a pointer to a registered vnode. -/
theorem dnodeCleanupVnode_trace (env : Env) (p : Int) (s : DnodeState) (v0 : SVnodeObj)
    (hv : taosGetIntHashData s.tsDnodeVnodesHash p = some v0) :
    ∃ s1, dnodeCleanupVnode env p s = some s1
      ∧ s1.trace = s.trace ++
          ([Event.storeStatus p v0.status VnStatus.notReady,
            Event.atomicSubFetch32 p (wrap32 (v0.refCount - 1)),
            Event.dnodeFreeReadWorker v0.rworker,
            Event.dnodeFreeWriteWorker v0.wworker]
            ++ (if v0.tsdb ≠ NULL then [Event.tsdbCloseRepo v0.tsdb] else [])) := by
  refine ⟨_, dnodeCleanupVnode_eq env p s v0 hv, ?_⟩
  simp only [List.append_assoc]

/-- The events `dnodeDropVnode` appends for a pointer to a registered vnode. -/
theorem dnodeDropVnode_trace (env : Env) (p : Int) (s : DnodeState) (v0 : SVnodeObj)
    (hv : taosGetIntHashData s.tsDnodeVnodesHash p = some v0) :
    ∃ s1, dnodeDropVnode env p s = some s1
      ∧ s1.trace = s.trace ++
          ([Event.storeStatus p v0.status VnStatus.notReady,
            Event.atomicSubFetch32 p (wrap32 (v0.refCount - 1))]
            ++ (if v0.tsdb ≠ NULL then [Event.tsdbDropRepo v0.tsdb] else [])
            ++ [Event.storeStatus p VnStatus.notReady VnStatus.notReady,
              Event.atomicSubFetch32 p (wrap32 (wrap32 (v0.refCount - 1) - 1)),
              Event.dnodeFreeReadWorker v0.rworker,
              Event.dnodeFreeWriteWorker v0.wworker]) := by
  refine ⟨_, dnodeDropVnode_eq env p s v0 hv, ?_⟩
  simp only [List.append_assoc]

/-- Storing through a pointer keeps the keys of the registry. -/
theorem writeNode_keys (l : List (Int × SVnodeObj)) (p : Int) (v : SVnodeObj) :
    (writeNode l p v).map Prod.fst = l.map Prod.fst := by
  induction l with
  | nil => simp [writeNode]
  | cons n rest ih =>
    obtain ⟨k, d⟩ := n
    by_cases h : k = p
    · simp only [writeNode, if_pos h, List.map_cons]
    · simp only [writeNode, if_neg h, List.map_cons, ih]

/-- Storing the object that is already there changes nothing. -/
theorem writeNode_self (l : List (Int × SVnodeObj)) (p : Int) (v : SVnodeObj)
    (h : findNode l p = some v) : writeNode l p v = l := by
  induction l with
  | nil => simp [writeNode]
  | cons n rest ih =>
    obtain ⟨k, d⟩ := n
    by_cases hk : k = p
    · simp only [findNode, if_pos hk] at h
      simp only [writeNode, if_pos hk, Option.some.inj h]
    · simp only [findNode, if_neg hk] at h
      simp only [writeNode, if_neg hk, ih h]

/-- On the `int32_t` range `wrap32` is the identity. -/
theorem wrap32_of_int32 (x : Int) (hlo : -2147483648 ≤ x) (hhi : x ≤ 2147483647) :
    wrap32 x = x := by
  unfold wrap32
  omega

/-- Wrapping before adding is wrapping after adding. -/
theorem wrap32_add (x k : Int) : wrap32 (wrap32 x + k) = wrap32 (x + k) := by
  unfold wrap32
  omega

/-- Wrapping before subtracting one is wrapping after subtracting one. -/
theorem wrap32_sub_one (x : Int) : wrap32 (wrap32 x - 1) = wrap32 (x - 1) := by
  unfold wrap32
  omega

/-- A paired sequence of borrows and releases, run while `k` handles of a Master vnode
are held, gives all handles back and leaves the `refCount` lower by `k`, modulo 2^32. -/
theorem runBorrowOps_paired (env : Env) (vgId : Int) :
    ∀ (ops : List BorrowOp) (k : Nat) (s : DnodeState) (v : SVnodeObj) (x : Int),
      taosGetIntHashData s.tsDnodeVnodesHash vgId = some v →
      v.status = VnStatus.master →
      v.refCount = wrap32 x →
      paired k ops = true →
      ∃ s1, runBorrowOps env vgId ops (List.replicate k vgId) s = some ([], s1)
        ∧ s1.tsDnodeVnodesHash
            = { s.tsDnodeVnodesHash with
                nodes := writeNode s.tsDnodeVnodesHash.nodes vgId
                  { v with refCount := wrap32 (x - k) } }
        ∧ s1.terrno = s.terrno
        ∧ s1.dnodeProcessMgmtMsgFp = s.dnodeProcessMgmtMsgFp := by
  intro ops
  induction ops with
  | nil =>
    intro k s v x hv _ hr hp
    have hk : k = 0 := by simpa [paired] using hp
    subst hk
    have hf : findNode s.tsDnodeVnodesHash.nodes vgId = some v := hv
    refine ⟨s, by simp [runBorrowOps], ?_, rfl, rfl⟩
    have hvv : ({ v with refCount := wrap32 (x - ((0 : Nat) : Int)) } : SVnodeObj) = v := by
      simp [← hr]
    rw [hvv, writeNode_self _ _ _ hf]
  | cons op rest ih =>
    intro k s v x hv hs hr hp
    have hf : findNode s.tsDnodeVnodesHash.nodes vgId = some v := hv
    cases op with
    | get =>
      have hget : dnodeGetVnode env vgId s
          = (some vgId,
              emit (storeVnode s vgId { v with refCount := wrap32 (x + 1) })
                (Event.atomicAddFetch32 vgId (wrap32 (x + 1)))) := by
        simp [dnodeGetVnode, hv, hs, invalidVnodeStatus, hr, wrap32_add]
      have hp1 : paired (k + 1) rest = true := by simpa [paired] using hp
      obtain ⟨s1, hrun, hhash, hterr, htab⟩ :=
        ih (k + 1)
          (emit (storeVnode s vgId { v with refCount := wrap32 (x + 1) })
            (Event.atomicAddFetch32 vgId (wrap32 (x + 1))))
          { v with refCount := wrap32 (x + 1) } (x + 1)
          (by simp [emit, storeVnode, taosGetIntHashData, findNode_writeNode_same, hf])
          hs rfl hp1
      refine ⟨s1, ?_, ?_, ?_, ?_⟩
      · simp only [runBorrowOps, hget]
        exact hrun
      · rw [hhash]
        simp only [emit, storeVnode, writeNode_writeNode]
        have : x + 1 - ((k + 1 : Nat) : Int) = x - (k : Int) := by push_cast; ring
        rw [this]
      · rw [hterr]; rfl
      · rw [htab]; rfl
    | release =>
      cases k with
      | zero => simp [paired] at hp
      | succ k1 =>
        have hrel : dnodeReleaseVnode vgId s
            = some (emit (storeVnode s vgId { v with refCount := wrap32 (x - 1) })
                (Event.atomicSubFetch32 vgId (wrap32 (x - 1)))) := by
          simp [dnodeReleaseVnode, hv, hr, wrap32_sub_one]
        have hp1 : paired k1 rest = true := by simpa [paired] using hp
        obtain ⟨s1, hrun, hhash, hterr, htab⟩ :=
          ih k1
            (emit (storeVnode s vgId { v with refCount := wrap32 (x - 1) })
              (Event.atomicSubFetch32 vgId (wrap32 (x - 1))))
            { v with refCount := wrap32 (x - 1) } (x - 1)
            (by simp [emit, storeVnode, taosGetIntHashData, findNode_writeNode_same, hf])
            hs rfl hp1
        refine ⟨s1, ?_, ?_, ?_, ?_⟩
        · simp only [List.replicate_succ, runBorrowOps, hrel]
          exact hrun
        · rw [hhash]
          simp only [emit, storeVnode, writeNode_writeNode]
          have : x - 1 - (k1 : Int) = x - ((k1 + 1 : Nat) : Int) := by push_cast; ring
          rw [this]
        · rw [hterr]; rfl
        · rw [htab]; rfl

/-- Distinct digits below ten print as distinct characters. -/
theorem digitChar_inj_of_lt_ten :
    ∀ a, a < 10 → ∀ b, b < 10 → Nat.digitChar a = Nat.digitChar b → a = b := by
  decide

/-- A digit below ten does not print as the minus sign. -/
theorem digitChar_ne_minus : ∀ a, a < 10 → Nat.digitChar a ≠ '-' := by
  decide

/-- Lists of digits below ten that print alike are equal. -/
theorem map_digitChar_inj :
    ∀ (l1 l2 : List Nat), (∀ d ∈ l1, d < 10) → (∀ d ∈ l2, d < 10) →
      l1.map Nat.digitChar = l2.map Nat.digitChar → l1 = l2 := by
  intro l1
  induction l1 with
  | nil =>
    intro l2 _ _ h
    cases l2 with
    | nil => rfl
    | cons b t => simp at h
  | cons a t ih =>
    intro l2 h1 h2 h
    cases l2 with
    | nil => simp at h
    | cons b t2 =>
      simp only [List.map_cons, List.cons.injEq] at h
      have hab : a = b :=
        digitChar_inj_of_lt_ten a (h1 a (List.mem_cons_self _ _)) b
          (h2 b (List.mem_cons_self _ _)) h.1
      have ht : t = t2 :=
        ih t2 (fun d hd => h1 d (List.mem_cons_of_mem _ hd))
          (fun d hd => h2 d (List.mem_cons_of_mem _ hd)) h.2
      rw [hab, ht]

/-- The decimal digits of a positive number, most significant first. -/
theorem decimalOfNat_pos (n : Nat) (hn : n ≠ 0) :
    decimalOfNat n = ((Nat.digits 10 n).reverse).map Nat.digitChar := by
  simp [decimalOfNat, hn]

/-- Distinct natural numbers render differently. -/
theorem decimalOfNat_inj (n m : Nat) (h : decimalOfNat n = decimalOfNat m) : n = m := by
  have hlt : ∀ k : Nat, ∀ d ∈ (Nat.digits 10 k).reverse, d < 10 := by
    intro k d hd
    exact Nat.digits_lt_base (by norm_num) (List.mem_reverse.mp hd)
  have hzero : ∀ k : Nat, k ≠ 0 → decimalOfNat k ≠ ['0'] := by
    intro k hk hk0
    rw [decimalOfNat_pos k hk] at hk0
    have hne : Nat.digits 10 k ≠ [] := Nat.digits_ne_nil_iff_ne_zero.mpr hk
    have hlast := Nat.getLast_digit_ne_zero 10 hk
    have hrev : (Nat.digits 10 k).reverse = [0] := by
      apply map_digitChar_inj _ [0] (hlt k) (by simp)
      simpa using hk0
    have hd : Nat.digits 10 k = [0] := by
      have := congrArg List.reverse hrev
      simpa using this
    simp [hd] at hlast
  by_cases hn : n = 0
  · by_cases hm : m = 0
    · rw [hn, hm]
    · exfalso
      apply hzero m hm
      rw [← h, hn]
      simp [decimalOfNat]
  · by_cases hm : m = 0
    · exfalso
      apply hzero n hn
      rw [h, hm]
      simp [decimalOfNat]
    · rw [decimalOfNat_pos n hn, decimalOfNat_pos m hm] at h
      have hrev := map_digitChar_inj _ _ (hlt n) (hlt m) h
      have hdig : Nat.digits 10 n = Nat.digits 10 m := by
        have := congrArg List.reverse hrev
        simpa using this
      exact Nat.digits_inj_iff.mp hdig

/-- The rendering of a natural number holds no minus sign. -/
theorem decimalOfNat_no_minus (n : Nat) : ∀ c ∈ decimalOfNat n, c ≠ '-' := by
  intro c hc
  by_cases hn : n = 0
  · simp [decimalOfNat, hn] at hc
    rw [hc]
    decide
  · rw [decimalOfNat_pos n hn] at hc
    obtain ⟨d, hd, hdc⟩ := List.mem_map.mp hc
    rw [← hdc]
    exact digitChar_ne_minus d (Nat.digits_lt_base (by norm_num) (List.mem_reverse.mp hd))

/-- Distinct integers print differently under `%d`. -/
theorem formatD_inj (a b : Int) (h : formatD a = formatD b) : a = b := by
  unfold formatD at h
  by_cases ha : a < 0
  · by_cases hb : b < 0
    · rw [if_pos ha, if_pos hb] at h
      have := decimalOfNat_inj _ _ (List.cons.inj h).2
      omega
    · rw [if_pos ha, if_neg hb] at h
      exfalso
      have hmem : '-' ∈ decimalOfNat b.natAbs := by rw [← h]; exact List.mem_cons_self _ _
      exact decimalOfNat_no_minus _ _ hmem rfl
  · by_cases hb : b < 0
    · rw [if_neg ha, if_pos hb] at h
      exfalso
      have hmem : '-' ∈ decimalOfNat a.natAbs := by rw [h]; exact List.mem_cons_self _ _
      exact decimalOfNat_no_minus _ _ hmem rfl
    · rw [if_neg ha, if_neg hb] at h
      have := decimalOfNat_inj _ _ h
      omega

/-- For a fixed directory, distinct vgroup ids give distinct root paths. -/
theorem vnodeRootDir_inj (dir : String) (a b : Int)
    (h : vnodeRootDir dir a = vnodeRootDir dir b) : a = b := by
  unfold vnodeRootDir at h
  have hd := congrArg String.data h
  simp only [String.data_append, List.append_assoc] at hd
  have h2 := List.append_cancel_left (List.append_cancel_left hd)
  exact formatD_inj a b h2

/-- C1: a registered vnode whose status is NotReady or Deleting is handed out by
`dnodeGetVnode`, with its `refCount` raised and no error code set, because the test of
line 119 (`status != MASTER && status == SLAVE`) is false for it although its status is
not Master; only a Slave is rejected with `InvalidVnodeStatus`.  Such a vnode is one the
file itself registers: after a `dnodeCreateVnode` for vgroup 7 whose storage call failed,
`dnodeGetVnode` hands out the NotReady vnode with a null storage handle. -/
theorem dnodeGetVnode_hands_out_notReady :
    (dnodeGetVnode failingEnv 7 (state7 VnStatus.notReady 1)).1 = some 7
    ∧ (dnodeGetVnode failingEnv 7 (state7 VnStatus.notReady 1)).2.terrno
        ≠ failingEnv.TSDB_CODE_INVALID_VNODE_STATUS
    ∧ taosGetIntHashData
        (dnodeGetVnode failingEnv 7 (state7 VnStatus.notReady 1)).2.tsDnodeVnodesHash 7
        = some (vnode7 VnStatus.notReady 2)
    ∧ (dnodeGetVnode failingEnv 7 (state7 VnStatus.deleting 1)).1 = some 7
    ∧ (dnodeGetVnode failingEnv 7 (state7 VnStatus.slave 1)).1 = none
    ∧ (dnodeGetVnode failingEnv 7 (state7 VnStatus.slave 1)).2.terrno
        = failingEnv.TSDB_CODE_INVALID_VNODE_STATUS
    ∧ ¬ (invalidVnodeStatus VnStatus.notReady = true
          ↔ VnStatus.notReady ≠ VnStatus.master)
    ∧ (dnodeGetVnode failingEnv 7
        (dnodeCreateVnode failingEnv (decodeCreateVnodeMsg failingEnv body7.createVnode)
          emptyState).2).1 = some 7
    ∧ taosGetIntHashData
        (dnodeGetVnode failingEnv 7
          (dnodeCreateVnode failingEnv (decodeCreateVnodeMsg failingEnv body7.createVnode)
            emptyState).2).2.tsDnodeVnodesHash 7
        = some { vnode7 VnStatus.notReady 2 with tsdb := NULL } := by
  decide

/-- C2: a CreateVnode message for vgroup 7, dispatched by `dnodeMgmt` on an empty
registry, is answered twice on the caller's transport handle (once by the handler, once by
the dispatcher) and its buffer is released twice; so are a DropVnode and an AlterVnode
message, while a message without a handler gets one reply and one release. -/
theorem dnodeMgmt_createVnode_replies_twice :
    (dnodeMgmt workingEnv (inbound 21) body7 emptyState).map
        (fun s => (repliesTo 77 s.trace, releasesOf 4096 s.trace)) = some (2, 2)
    ∧ (dnodeMgmt workingEnv (inbound 23) body7 emptyState).map
        (fun s => (repliesTo 77 s.trace, releasesOf 4096 s.trace)) = some (2, 2)
    ∧ (dnodeMgmt workingEnv (inbound 25) body7 emptyState).map
        (fun s => (repliesTo 77 s.trace, releasesOf 4096 s.trace)) = some (2, 2)
    ∧ (dnodeMgmt workingEnv (inbound 99) body7 emptyState).map
        (fun s => (repliesTo 77 s.trace, releasesOf 4096 s.trace)) = some (1, 1) := by
  decide

/-- C3: when the storage engine fails to open or to create the repository of vgroup 7
(null handle, `terrno` set to `-7`), `dnodeOpenVnode` and `dnodeCreateVnode` do not return
`-7`: they return `TSDB_CODE_SUCCESS` and register a vnode object whose storage handle is
null. -/
theorem dnodeOpenVnode_registers_on_failure :
    (dnodeOpenVnode failingEnv 7 emptyState).1 = failingEnv.TSDB_CODE_SUCCESS
    ∧ (dnodeOpenVnode failingEnv 7 emptyState).2.terrno = -7
    ∧ taosGetIntHashData (dnodeOpenVnode failingEnv 7 emptyState).2.tsDnodeVnodesHash 7
        = some { vnode7 VnStatus.notReady 1 with tsdb := NULL }
    ∧ (dnodeCreateVnode failingEnv (decodeCreateVnodeMsg failingEnv body7.createVnode)
        emptyState).1 = failingEnv.TSDB_CODE_SUCCESS
    ∧ taosGetIntHashData
        (dnodeCreateVnode failingEnv (decodeCreateVnodeMsg failingEnv body7.createVnode)
          emptyState).2.tsDnodeVnodesHash 7
        = some { vnode7 VnStatus.notReady 1 with tsdb := NULL } := by
  decide

/-- C4: when the storage engine opens or creates the repository of the unregistered
vgroup 7 and returns the handle `900`, `dnodeOpenVnode` and `dnodeCreateVnode` return the
current `terrno`, allocate no worker and register nothing: a lookup of vgroup 7 still
misses. -/
theorem dnodeOpenVnode_registers_nothing_on_success :
    (workingEnv.tsdbOpenRepo emptyState.trace (vnodeRootDir workingEnv.tsDirectory 7)).1 = 900
    ∧ taosGetIntHashData emptyState.tsDnodeVnodesHash 7 = none
    ∧ (dnodeOpenVnode workingEnv 7 emptyState).1 = emptyState.terrno
    ∧ taosGetIntHashData (dnodeOpenVnode workingEnv 7 emptyState).2.tsDnodeVnodesHash 7 = none
    ∧ (dnodeOpenVnode workingEnv 7 emptyState).2.trace.length = 1
    ∧ taosGetIntHashData
        (dnodeCreateVnode workingEnv (decodeCreateVnodeMsg workingEnv body7.createVnode)
          emptyState).2.tsDnodeVnodesHash 7 = none
    ∧ (dnodeCreateVnode workingEnv (decodeCreateVnodeMsg workingEnv body7.createVnode)
          emptyState).2.trace.length = 1 := by
  decide

/-- C7: dropping the vnode of vgroup 7 with `refCount` 1 decrements the count twice, once
in `dnodeDropVnode` and once in the `dnodeCleanupVnode` it calls: the two atomic
decrements return 0 and then -1. -/
theorem dnodeDropVnode_decrements_twice :
    (dnodeDropVnode workingEnv 7 (state7 VnStatus.notReady 1)).map
        (fun s => refCountsAfterSub 7 s.trace) = some [0, -1] := by
  decide

/-- C5: for every registry state and every vnode registered in it under its own vgroup
id, `dnodeDropVnode` returns, afterwards that vgroup id is absent from the registry, the
lookup of every other key is what it was, and `dnodeGetVnode` for that vgroup id returns
no handle, sets the error code to `InvalidVgroupId` and changes nothing else. -/
theorem dnodeDropVnode_removes_entry (env : Env) (vgId : Int) (s : DnodeState)
    (pVnode : SVnodeObj)
    (hv : taosGetIntHashData s.tsDnodeVnodesHash vgId = some pVnode)
    (hk : pVnode.vgId = vgId) :
    ∃ s1, dnodeDropVnode env vgId s = some s1
      ∧ taosGetIntHashData s1.tsDnodeVnodesHash vgId = none
      ∧ (∀ k, k ≠ vgId →
          taosGetIntHashData s1.tsDnodeVnodesHash k = taosGetIntHashData s.tsDnodeVnodesHash k)
      ∧ dnodeGetVnode env vgId s1
          = (none, { s1 with terrno := env.TSDB_CODE_INVALID_VGROUP_ID }) := by
  have hgone : ∀ v : SVnodeObj,
      findNode (dropNodes (writeNode s.tsDnodeVnodesHash.nodes vgId v) pVnode.vgId) vgId
        = none := by
    intro v
    rw [hk, dropNodes_writeNode, findNode_dropNodes_same]
  refine ⟨_, dnodeDropVnode_eq env vgId s pVnode hv, ?_, ?_, ?_⟩
  · simp only [taosGetIntHashData, taosDeleteIntHash]
    exact hgone _
  · intro k hne
    simp only [taosGetIntHashData, taosDeleteIntHash]
    rw [hk, dropNodes_writeNode, findNode_dropNodes_other _ _ _ hne]
  · simp only [dnodeGetVnode, taosGetIntHashData, taosDeleteIntHash]
    rw [hgone _]

/-- Witness for `dnodeDropVnode_removes_entry`: vgroup 7 registered as a Master with two
references. -/
theorem dnodeDropVnode_removes_entry_witness :
    ∃ s1, dnodeDropVnode workingEnv 7 (state7 VnStatus.master 2) = some s1
      ∧ taosGetIntHashData s1.tsDnodeVnodesHash 7 = none
      ∧ (∀ k, k ≠ 7 →
          taosGetIntHashData s1.tsDnodeVnodesHash k
            = taosGetIntHashData (state7 VnStatus.master 2).tsDnodeVnodesHash k)
      ∧ dnodeGetVnode workingEnv 7 s1 = (none, { s1 with terrno := 10 }) :=
  dnodeDropVnode_removes_entry workingEnv 7 (state7 VnStatus.master 2)
    (vnode7 VnStatus.master 2) (by decide) rfl

/-- C6, as stated, fails: dropping the Master vnode of vgroup 7 first stores NotReady, not
Deleting, into its status, and NotReady is the status it has when `tsdbDropRepo` is
called. -/
theorem dnodeDropVnode_stores_notReady :
    (dnodeDropVnode workingEnv 7 (state7 VnStatus.master 1)).map (fun s => s.trace.head?)
        = some (some (Event.storeStatus 7 VnStatus.master VnStatus.notReady))
    ∧ (dnodeDropVnode workingEnv 7 (state7 VnStatus.master 1)).map (fun s => s.trace.head?)
        ≠ some (some (Event.storeStatus 7 VnStatus.master VnStatus.deleting))
    ∧ (dnodeDropVnode workingEnv 7 (state7 VnStatus.master 1)).map
        (fun s => statusAtRepoDrops 7 VnStatus.master s.trace) = some [VnStatus.notReady]
    ∧ (dnodeDropVnode workingEnv 7 (state7 VnStatus.master 1)).map
        (fun s => statusAtRepoDrops 7 VnStatus.master s.trace) ≠ some [VnStatus.deleting] := by
  decide

/-- C6, amended: for every registered vnode, whatever its prior status, `dnodeDropVnode`
returns, the first thing it does is to store NotReady into the vnode's status, and
NotReady is the status the vnode has when the storage repository is deleted (which
happens once if the vnode holds a storage handle, and not at all otherwise). -/
theorem dnodeDropVnode_first_sets_notReady (env : Env) (p : Int) (s : DnodeState)
    (v0 : SVnodeObj) (hv : taosGetIntHashData s.tsDnodeVnodesHash p = some v0) :
    ∃ s1 rest, dnodeDropVnode env p s = some s1
      ∧ s1.trace = s.trace ++ Event.storeStatus p v0.status VnStatus.notReady :: rest
      ∧ statusAtRepoDrops p v0.status
          (Event.storeStatus p v0.status VnStatus.notReady :: rest)
          = (if v0.tsdb ≠ NULL then [VnStatus.notReady] else []) := by
  refine ⟨_, Event.atomicSubFetch32 p (wrap32 (v0.refCount - 1))
      :: ((if v0.tsdb ≠ NULL then [Event.tsdbDropRepo v0.tsdb] else [])
        ++ [Event.storeStatus p VnStatus.notReady VnStatus.notReady,
            Event.atomicSubFetch32 p (wrap32 (wrap32 (v0.refCount - 1) - 1)),
            Event.dnodeFreeReadWorker v0.rworker,
            Event.dnodeFreeWriteWorker v0.wworker]),
    dnodeDropVnode_eq env p s v0 hv, ?_, ?_⟩
  · simp only [List.append_assoc, List.cons_append, List.nil_append]
  · by_cases ht : v0.tsdb = NULL <;> simp [ht, statusAtRepoDrops]

/-- Witness for `dnodeDropVnode_first_sets_notReady`: vgroup 7 registered as a Slave. -/
theorem dnodeDropVnode_first_sets_notReady_witness :
    ∃ s1 rest, dnodeDropVnode workingEnv 7 (state7 VnStatus.slave 1) = some s1
      ∧ s1.trace = (state7 VnStatus.slave 1).trace
          ++ Event.storeStatus 7 VnStatus.slave VnStatus.notReady :: rest
      ∧ statusAtRepoDrops 7 VnStatus.slave
          (Event.storeStatus 7 VnStatus.slave VnStatus.notReady :: rest)
          = [VnStatus.notReady] :=
  dnodeDropVnode_first_sets_notReady workingEnv 7 (state7 VnStatus.slave 1)
    (vnode7 VnStatus.slave 1) (by decide)

/-- C8: for every CreateVnode message whose decoded vgroup id is already registered,
`dnodeProcessCreateVnodeMsg` does exactly two things: it sends one reply, to the caller's
transport handle, with code `TSDB_CODE_SUCCESS` and no body, and it releases the message
buffer.  No storage or worker call is made, and `terrno`, the registry (with every field of
the existing vnode object) and the dispatch table are unchanged. -/
theorem dnodeProcessCreateVnodeMsg_existing (env : Env) (rpcMsg : SRpcMsg) (body : MsgBody)
    (s : DnodeState) (pVnodeObj : SVnodeObj)
    (hv : taosGetIntHashData s.tsDnodeVnodesHash (env.htonl body.createVnode.cfg.vgId)
            = some pVnodeObj) :
    dnodeProcessCreateVnodeMsg env rpcMsg body s
      = { s with
          trace := s.trace ++
            [Event.rpcSendResponse
                { handle := rpcMsg.handle, pCont := NULL, contLen := 0,
                  code := env.TSDB_CODE_SUCCESS, msgType := 0 },
              Event.rpcFreeCont rpcMsg.pCont] } := by
  simp [dnodeProcessCreateVnodeMsg, decodeCreateVnodeMsg, hv, emit]

/-- Witness for `dnodeProcessCreateVnodeMsg_existing`: vgroup 7 is registered and the
message names vgroup 7 in network byte order. -/
theorem dnodeProcessCreateVnodeMsg_existing_witness :
    dnodeProcessCreateVnodeMsg workingEnv (inbound 21) body7 (state7 VnStatus.master 3)
      = { state7 VnStatus.master 3 with
          trace := (state7 VnStatus.master 3).trace ++
            [Event.rpcSendResponse
                { handle := 77, pCont := NULL, contLen := 0, code := 0, msgType := 0 },
              Event.rpcFreeCont 4096] } :=
  dnodeProcessCreateVnodeMsg_existing workingEnv (inbound 21) body7
    (state7 VnStatus.master 3) (vnode7 VnStatus.master 3) (by decide)

/-- C9: for every registry state and every vgroup id that is not registered,
`dnodeGetVnode` returns no handle and sets the error code to `InvalidVgroupId`; the
registry (hence every `refCount`), the dispatch table and the trace are unchanged. -/
theorem dnodeGetVnode_absent (env : Env) (vgId : Int) (s : DnodeState)
    (hv : taosGetIntHashData s.tsDnodeVnodesHash vgId = none) :
    dnodeGetVnode env vgId s = (none, { s with terrno := env.TSDB_CODE_INVALID_VGROUP_ID }) := by
  simp [dnodeGetVnode, hv]

/-- Witness for `dnodeGetVnode_absent`: vgroup 99 where only vgroup 7 is registered. -/
theorem dnodeGetVnode_absent_witness :
    dnodeGetVnode workingEnv 99 (state7 VnStatus.master 1)
      = (none, { state7 VnStatus.master 1 with terrno := 10 }) :=
  dnodeGetVnode_absent workingEnv 99 (state7 VnStatus.master 1) (by decide)

/-- C10: with the dispatch table as `dnodeInitMgmt` leaves it, for every message whose tag
is none of CreateVnode, DropVnode, AlterVnode, AlterStream, ConfigDnode, `dnodeMgmt`
returns after exactly two steps: one reply, to the caller's transport handle, with code
`MessageNotProcessed` and a null body, and one release of the inbound buffer.  The
registry and the dispatch table are unchanged. -/
theorem dnodeMgmt_unknown_tag (env : Env) (pMsg : SRpcMsg) (body : MsgBody) (s : DnodeState)
    (htable : s.dnodeProcessMgmtMsgFp
        = (dnodeInitMgmt env initialState).2.dnodeProcessMgmtMsgFp)
    (h1 : pMsg.msgType ≠ env.TSDB_MSG_TYPE_MD_CREATE_VNODE)
    (h2 : pMsg.msgType ≠ env.TSDB_MSG_TYPE_MD_DROP_VNODE)
    (h3 : pMsg.msgType ≠ env.TSDB_MSG_TYPE_MD_ALTER_VNODE)
    (h4 : pMsg.msgType ≠ env.TSDB_MSG_TYPE_MD_ALTER_STREAM)
    (h5 : pMsg.msgType ≠ env.TSDB_MSG_TYPE_MD_CONFIG_DNODE) :
    dnodeMgmt env pMsg body s
      = some
        { s with
          terrno := env.TSDB_CODE_MSG_NOT_PROCESSED
          trace := s.trace ++
            [Event.rpcSendResponse
                { env.rspGarbage with
                  handle := pMsg.handle, code := env.TSDB_CODE_MSG_NOT_PROCESSED,
                  pCont := NULL },
              Event.rpcFreeCont pMsg.pCont] } := by
  have hnone : s.dnodeProcessMgmtMsgFp pMsg.msgType = none := by
    rw [htable]
    unfold dnodeInitMgmt
    by_cases ha : env.taosInitIntHashOk = false
    · simp [ha, setFp, h1, h2, h3, h4, h5, initialState, noHandlers]
    · by_cases hb : env.taosTmrInitOk = false
      · simp [ha, hb, setFp, h1, h2, h3, h4, h5, initialState, noHandlers]
      · simp [ha, hb, setFp, h1, h2, h3, h4, h5, initialState, noHandlers]
  simp [dnodeMgmt, hnone, emit]

/-- Witness for `dnodeMgmt_unknown_tag`: tag 99 on the state `dnodeInitMgmt` leaves. -/
theorem dnodeMgmt_unknown_tag_witness :
    dnodeMgmt failingEnv (inbound 99) body7 emptyState
      = some
        { emptyState with
          terrno := 12
          trace := emptyState.trace ++
            [Event.rpcSendResponse
                { msgType := 170, pCont := NULL, contLen := -1, code := 12, handle := 77 },
              Event.rpcFreeCont 4096] } :=
  dnodeMgmt_unknown_tag failingEnv (inbound 99) body7 emptyState rfl
    (by decide) (by decide) (by decide) (by decide) (by decide)

/-- C11: a DropVnode message for the unregistered vgroup 99, dispatched by `dnodeMgmt` on
an empty registry, is answered twice: the handler replies `InvalidVgroupId` and the
dispatcher then replies with `terrno`, which is still 0.  No storage or worker call is
made and the registry is unchanged. -/
theorem dnodeMgmt_drop_unknown_replies_twice :
    taosGetIntHashData emptyState.tsDnodeVnodesHash (failingEnv.htonl body99.dropVnode.vgId)
        = none
    ∧ (dnodeMgmt failingEnv (inbound 23) body99 emptyState).map
        (fun s => replyCodes s.trace) = some [failingEnv.TSDB_CODE_INVALID_VGROUP_ID, 0]
    ∧ failingEnv.TSDB_CODE_INVALID_VGROUP_ID ≠ 0
    ∧ (dnodeMgmt failingEnv (inbound 23) body99 emptyState).map
        (fun s => storageAndWorkerCalls s.trace) = some []
    ∧ (dnodeMgmt failingEnv (inbound 23) body99 emptyState).map
        (fun s => s.tsDnodeVnodesHash) = some emptyState.tsDnodeVnodesHash := by
  decide

/-- C12: for every registered vnode holding a storage handle, `dnodeCleanupVnode` returns
having called `tsdbCloseRepo` once, on that handle, and `tsdbDropRepo` not at all;
`dnodeDropVnode` returns having called `tsdbDropRepo` once, on that handle. -/
theorem teardown_close_versus_drop (env : Env) (p : Int) (s : DnodeState) (v0 : SVnodeObj)
    (hv : taosGetIntHashData s.tsDnodeVnodesHash p = some v0) (ht : v0.tsdb ≠ NULL) :
    (∃ s1 evs, dnodeCleanupVnode env p s = some s1 ∧ s1.trace = s.trace ++ evs
        ∧ repoCloses evs = [v0.tsdb] ∧ repoDrops evs = [])
    ∧ (∃ s1 evs, dnodeDropVnode env p s = some s1 ∧ s1.trace = s.trace ++ evs
        ∧ repoDrops evs = [v0.tsdb]) := by
  obtain ⟨c1, hc, hct⟩ := dnodeCleanupVnode_trace env p s v0 hv
  obtain ⟨d1, hd, hdt⟩ := dnodeDropVnode_trace env p s v0 hv
  refine ⟨⟨c1, _, hc, hct, ?_, ?_⟩, ⟨d1, _, hd, hdt, ?_⟩⟩
  · simp [ht, repoCloses]
  · simp [ht, repoDrops]
  · simp [ht, repoDrops]

/-- Witness for `teardown_close_versus_drop`: vgroup 7 registered with storage handle
`900`. -/
theorem teardown_close_versus_drop_witness :
    (∃ s1 evs, dnodeCleanupVnode workingEnv 7 (state7 VnStatus.master 1) = some s1
        ∧ s1.trace = (state7 VnStatus.master 1).trace ++ evs
        ∧ repoCloses evs = [900] ∧ repoDrops evs = [])
    ∧ (∃ s1 evs, dnodeDropVnode workingEnv 7 (state7 VnStatus.master 1) = some s1
        ∧ s1.trace = (state7 VnStatus.master 1).trace ++ evs
        ∧ repoDrops evs = [900]) :=
  teardown_close_versus_drop workingEnv 7 (state7 VnStatus.master 1)
    (vnode7 VnStatus.master 1) (by decide) (by decide)

/-- C13: two CreateVnode messages for the unregistered vgroup 7, processed in succession
while the storage engine creates the repository each time (handle `900`), leave the
registry empty: `tsdbCreateRepo` is called twice, no vnode object is registered for
vgroup 7, and each reply carries the `terrno` of the moment. -/
theorem dnodeProcessCreateVnodeMsg_twice_registers_nothing :
    taosGetIntHashData emptyState.tsDnodeVnodesHash 7 = none
    ∧ taosGetIntHashData
        (dnodeProcessCreateVnodeMsg workingEnv (inbound 21) body7
          (dnodeProcessCreateVnodeMsg workingEnv (inbound 21) body7
            emptyState)).tsDnodeVnodesHash 7 = none
    ∧ (dnodeProcessCreateVnodeMsg workingEnv (inbound 21) body7
          (dnodeProcessCreateVnodeMsg workingEnv (inbound 21) body7
            emptyState)).tsDnodeVnodesHash.nodes = []
    ∧ repoCreates
        (dnodeProcessCreateVnodeMsg workingEnv (inbound 21) body7
          (dnodeProcessCreateVnodeMsg workingEnv (inbound 21) body7 emptyState)).trace = 2
    ∧ replyCodes
        (dnodeProcessCreateVnodeMsg workingEnv (inbound 21) body7
          (dnodeProcessCreateVnodeMsg workingEnv (inbound 21) body7 emptyState)).trace
        = [emptyState.terrno, emptyState.terrno] := by
  decide

/-- C14: for every registered Master vnode (its `refCount` an `int32_t`) and every
sequence of `dnodeGetVnode` calls on its vgroup id and `dnodeReleaseVnode` calls on the
handles they returned, interleaved in any order in which each release follows its get and
every handle is released, all the calls succeed and the registry afterwards is the
registry before: the `refCount` has its former value and every other field and entry is
unchanged, as are `terrno` and the dispatch table. -/
theorem borrow_release_balance (env : Env) (vgId : Int) (s : DnodeState) (v : SVnodeObj)
    (ops : List BorrowOp)
    (hv : taosGetIntHashData s.tsDnodeVnodesHash vgId = some v)
    (hs : v.status = VnStatus.master)
    (hlo : -2147483648 ≤ v.refCount) (hhi : v.refCount ≤ 2147483647)
    (hp : paired 0 ops = true) :
    ∃ s1, runBorrowOps env vgId ops [] s = some ([], s1)
      ∧ s1.tsDnodeVnodesHash = s.tsDnodeVnodesHash
      ∧ taosGetIntHashData s1.tsDnodeVnodesHash vgId = some v
      ∧ s1.terrno = s.terrno
      ∧ s1.dnodeProcessMgmtMsgFp = s.dnodeProcessMgmtMsgFp := by
  have hf : findNode s.tsDnodeVnodesHash.nodes vgId = some v := hv
  obtain ⟨s1, hrun, hhash, hterr, htab⟩ :=
    runBorrowOps_paired env vgId ops 0 s v v.refCount hv hs
      (wrap32_of_int32 _ hlo hhi).symm hp
  have hvv : ({ v with refCount := wrap32 (v.refCount - ((0 : Nat) : Int)) } : SVnodeObj)
      = v := by
    simp [wrap32_of_int32 _ hlo hhi]
  rw [hvv, writeNode_self _ _ _ hf] at hhash
  have hsame : s1.tsDnodeVnodesHash = s.tsDnodeVnodesHash := hhash
  exact ⟨s1, by simpa using hrun, hsame, by rw [hsame]; exact hv, hterr, htab⟩

/-- Witness for `borrow_release_balance`: three borrows of vgroup 7, nested and
interleaved. -/
theorem borrow_release_balance_witness :
    ∃ s1, runBorrowOps workingEnv 7
        [BorrowOp.get, BorrowOp.get, BorrowOp.release, BorrowOp.get, BorrowOp.release,
          BorrowOp.release] [] (state7 VnStatus.master 1) = some ([], s1)
      ∧ s1.tsDnodeVnodesHash = (state7 VnStatus.master 1).tsDnodeVnodesHash
      ∧ taosGetIntHashData s1.tsDnodeVnodesHash 7 = some (vnode7 VnStatus.master 1)
      ∧ s1.terrno = (state7 VnStatus.master 1).terrno
      ∧ s1.dnodeProcessMgmtMsgFp = (state7 VnStatus.master 1).dnodeProcessMgmtMsgFp :=
  borrow_release_balance workingEnv 7 (state7 VnStatus.master 1) (vnode7 VnStatus.master 1)
    [BorrowOp.get, BorrowOp.get, BorrowOp.release, BorrowOp.get, BorrowOp.release,
      BorrowOp.release]
    (by decide) rfl (by decide) (by decide) (by decide)

/-- C15, as stated, fails: when the Master vnode of vgroup 7 has `refCount` 2147483647,
`dnodeGetVnode` returns its handle and the 32-bit atomic add leaves the `refCount` at
-2147483648, not one higher. -/
theorem dnodeGetVnode_wraps_refCount :
    (dnodeGetVnode workingEnv 7 (state7 VnStatus.master 2147483647)).1 = some 7
    ∧ taosGetIntHashData
        (dnodeGetVnode workingEnv 7 (state7 VnStatus.master 2147483647)).2.tsDnodeVnodesHash 7
        = some (vnode7 VnStatus.master (-2147483648)) := by
  decide

/-- C15, amended: for every registry state and every vgroup id registered with status
Master and a `refCount` (an `int32_t`) below 2147483647, `dnodeGetVnode` returns the handle
of exactly that vnode, increases that vnode's `refCount` by exactly one and changes
nothing else: the other fields of the vnode, the object under every other key, the
registered keys, `terrno` and the dispatch table are unchanged. -/
theorem dnodeGetVnode_master (env : Env) (vgId : Int) (s : DnodeState) (v : SVnodeObj)
    (hv : taosGetIntHashData s.tsDnodeVnodesHash vgId = some v)
    (hs : v.status = VnStatus.master)
    (hlo : -2147483648 ≤ v.refCount) (hhi : v.refCount < 2147483647) :
    (dnodeGetVnode env vgId s).1 = some vgId
    ∧ taosGetIntHashData (dnodeGetVnode env vgId s).2.tsDnodeVnodesHash vgId
        = some { v with refCount := v.refCount + 1 }
    ∧ (∀ k, k ≠ vgId →
        taosGetIntHashData (dnodeGetVnode env vgId s).2.tsDnodeVnodesHash k
          = taosGetIntHashData s.tsDnodeVnodesHash k)
    ∧ (dnodeGetVnode env vgId s).2.tsDnodeVnodesHash.nodes.map Prod.fst
        = s.tsDnodeVnodesHash.nodes.map Prod.fst
    ∧ (dnodeGetVnode env vgId s).2.tsDnodeVnodesHash.maxSessions
        = s.tsDnodeVnodesHash.maxSessions
    ∧ (dnodeGetVnode env vgId s).2.terrno = s.terrno
    ∧ (dnodeGetVnode env vgId s).2.dnodeProcessMgmtMsgFp = s.dnodeProcessMgmtMsgFp := by
  have hw : wrap32 (v.refCount + 1) = v.refCount + 1 :=
    wrap32_of_int32 _ (by omega) (by omega)
  have hf : findNode s.tsDnodeVnodesHash.nodes vgId = some v := hv
  have hget : dnodeGetVnode env vgId s
      = (some vgId,
          emit (storeVnode s vgId { v with refCount := v.refCount + 1 })
            (Event.atomicAddFetch32 vgId (v.refCount + 1))) := by
    simp [dnodeGetVnode, hv, hs, invalidVnodeStatus, hw]
  rw [hget]
  refine ⟨rfl, ?_, ?_, ?_, rfl, rfl, rfl⟩
  · simp [emit, storeVnode, taosGetIntHashData, findNode_writeNode_same, hf]
  · intro k hk
    simp [emit, storeVnode, taosGetIntHashData, findNode_writeNode_other _ _ _ _ hk]
  · simp [emit, storeVnode, writeNode_keys]

/-- Witness for `dnodeGetVnode_master`: vgroup 7 registered as a Master with three
references. -/
theorem dnodeGetVnode_master_witness :
    (dnodeGetVnode workingEnv 7 (state7 VnStatus.master 3)).1 = some 7
    ∧ taosGetIntHashData (dnodeGetVnode workingEnv 7 (state7 VnStatus.master 3)).2.tsDnodeVnodesHash 7
        = some { vnode7 VnStatus.master 3 with refCount := 3 + 1 }
    ∧ (∀ k, k ≠ 7 →
        taosGetIntHashData (dnodeGetVnode workingEnv 7 (state7 VnStatus.master 3)).2.tsDnodeVnodesHash k
          = taosGetIntHashData (state7 VnStatus.master 3).tsDnodeVnodesHash k)
    ∧ (dnodeGetVnode workingEnv 7 (state7 VnStatus.master 3)).2.tsDnodeVnodesHash.nodes.map Prod.fst
        = (state7 VnStatus.master 3).tsDnodeVnodesHash.nodes.map Prod.fst
    ∧ (dnodeGetVnode workingEnv 7 (state7 VnStatus.master 3)).2.tsDnodeVnodesHash.maxSessions
        = (state7 VnStatus.master 3).tsDnodeVnodesHash.maxSessions
    ∧ (dnodeGetVnode workingEnv 7 (state7 VnStatus.master 3)).2.terrno
        = (state7 VnStatus.master 3).terrno
    ∧ (dnodeGetVnode workingEnv 7 (state7 VnStatus.master 3)).2.dnodeProcessMgmtMsgFp
        = (state7 VnStatus.master 3).dnodeProcessMgmtMsgFp :=
  dnodeGetVnode_master workingEnv 7 (state7 VnStatus.master 3) (vnode7 VnStatus.master 3)
    (by decide) rfl (by decide) (by decide)

/-- C16: for every registered vnode, `dnodeCleanupVnode` and `dnodeDropVnode` each return
having freed the read worker exactly once and the write worker exactly once; a non-null
storage handle is released exactly once, by one close (cleanup) or by one drop (drop),
never both; a null storage handle is not released at all. -/
theorem teardown_releases_once (env : Env) (p : Int) (s : DnodeState) (v0 : SVnodeObj)
    (hv : taosGetIntHashData s.tsDnodeVnodesHash p = some v0) :
    (∃ s1 evs, dnodeCleanupVnode env p s = some s1 ∧ s1.trace = s.trace ++ evs
        ∧ freedReadWorkers evs = [v0.rworker] ∧ freedWriteWorkers evs = [v0.wworker]
        ∧ repoCloses evs ++ repoDrops evs = (if v0.tsdb ≠ NULL then [v0.tsdb] else []))
    ∧ (∃ s1 evs, dnodeDropVnode env p s = some s1 ∧ s1.trace = s.trace ++ evs
        ∧ freedReadWorkers evs = [v0.rworker] ∧ freedWriteWorkers evs = [v0.wworker]
        ∧ repoCloses evs ++ repoDrops evs = (if v0.tsdb ≠ NULL then [v0.tsdb] else [])) := by
  obtain ⟨c1, hc, hct⟩ := dnodeCleanupVnode_trace env p s v0 hv
  obtain ⟨d1, hd, hdt⟩ := dnodeDropVnode_trace env p s v0 hv
  refine ⟨⟨c1, _, hc, hct, ?_, ?_, ?_⟩, ⟨d1, _, hd, hdt, ?_, ?_, ?_⟩⟩
  · by_cases ht : v0.tsdb = NULL <;> simp [ht, freedReadWorkers]
  · by_cases ht : v0.tsdb = NULL <;> simp [ht, freedWriteWorkers]
  · by_cases ht : v0.tsdb = NULL <;> simp [ht, repoCloses, repoDrops]
  · by_cases ht : v0.tsdb = NULL <;> simp [ht, freedReadWorkers]
  · by_cases ht : v0.tsdb = NULL <;> simp [ht, freedWriteWorkers]
  · by_cases ht : v0.tsdb = NULL <;> simp [ht, repoCloses, repoDrops]

/-- Witness for `teardown_releases_once`: vgroup 7 with workers `502` and `501` and storage
handle `900`. -/
theorem teardown_releases_once_witness :
    (∃ s1 evs, dnodeCleanupVnode workingEnv 7 (state7 VnStatus.slave 2) = some s1
        ∧ s1.trace = (state7 VnStatus.slave 2).trace ++ evs
        ∧ freedReadWorkers evs = [502] ∧ freedWriteWorkers evs = [501]
        ∧ repoCloses evs ++ repoDrops evs = [900])
    ∧ (∃ s1 evs, dnodeDropVnode workingEnv 7 (state7 VnStatus.slave 2) = some s1
        ∧ s1.trace = (state7 VnStatus.slave 2).trace ++ evs
        ∧ freedReadWorkers evs = [502] ∧ freedWriteWorkers evs = [501]
        ∧ repoCloses evs ++ repoDrops evs = [900]) :=
  teardown_releases_once workingEnv 7 (state7 VnStatus.slave 2)
    (vnode7 VnStatus.slave 2) (by decide)

/-- C17: for every registry state, every message and every behaviour of the collaborators,
the AlterVnode handler returns the very state the CreateVnode handler returns: the same
reply (code included), the same registry, the same `terrno` and the same sequence of
collaborator calls. -/
theorem dnodeProcessAlterVnodeMsg_eq_create (env : Env) (rpcMsg : SRpcMsg) (body : MsgBody)
    (s : DnodeState) :
    dnodeProcessAlterVnodeMsg env rpcMsg body s = dnodeProcessCreateVnodeMsg env rpcMsg body s
    ∧ replyCodes (dnodeProcessAlterVnodeMsg env rpcMsg body s).trace
        = replyCodes (dnodeProcessCreateVnodeMsg env rpcMsg body s).trace
    ∧ (dnodeProcessAlterVnodeMsg env rpcMsg body s).tsDnodeVnodesHash
        = (dnodeProcessCreateVnodeMsg env rpcMsg body s).tsDnodeVnodesHash
    ∧ storageAndWorkerCalls (dnodeProcessAlterVnodeMsg env rpcMsg body s).trace
        = storageAndWorkerCalls (dnodeProcessCreateVnodeMsg env rpcMsg body s).trace := by
  have h : dnodeProcessAlterVnodeMsg env rpcMsg body s
      = dnodeProcessCreateVnodeMsg env rpcMsg body s := by
    unfold dnodeProcessAlterVnodeMsg dnodeProcessCreateVnodeMsg
    rfl
  exact ⟨h, by rw [h], by rw [h], by rw [h]⟩

/-- C19: `dnodeOpenVnode` and `dnodeCreateVnode` pass the storage engine the same function
of the data directory and the vgroup id as root path: the directory, then `/vnode`, then
the vgroup id as `%d` prints it (digits most significant first, a minus sign before a
negative number).  For a fixed directory that function is injective, on all integers and
so on the `int32_t` vgroup ids. -/
theorem vnodeRootDir_same_and_injective (env : Env) (s : DnodeState) (vgId : Int)
    (pVnodeCfg : SMDCreateVnodeMsg) :
    (∃ rest, (dnodeOpenVnode env vgId s).2.trace
        = s.trace ++ Event.tsdbOpenRepo (vnodeRootDir env.tsDirectory vgId) :: rest)
    ∧ (∃ cfg rest, (dnodeCreateVnode env pVnodeCfg s).2.trace
        = s.trace
          ++ Event.tsdbCreateRepo (vnodeRootDir env.tsDirectory pVnodeCfg.cfg.vgId) cfg :: rest)
    ∧ vnodeRootDir env.tsDirectory vgId
        = env.tsDirectory ++ "/vnode" ++ String.mk (formatD vgId)
    ∧ formatD 0 = ['0']
    ∧ formatD 7 = ['7']
    ∧ formatD (-12) = ['-', '1', '2']
    ∧ formatD 2147483647 = ['2', '1', '4', '7', '4', '8', '3', '6', '4', '7']
    ∧ formatD (-2147483648) = ['-', '2', '1', '4', '7', '4', '8', '3', '6', '4', '8']
    ∧ ∀ dir : String, Function.Injective (vnodeRootDir dir) := by
  refine ⟨?_, ?_, rfl, ?_, ?_, ?_, ?_, ?_, ?_⟩
  · by_cases hn : (env.tsdbOpenRepo s.trace (vnodeRootDir env.tsDirectory vgId)).1 = NULL
    · exact ⟨[Event.dnodeAllocateWriteWorker, Event.dnodeAllocateReadWorker],
        by simp [dnodeOpenVnode, hn, emit, setErrno]⟩
    · exact ⟨[], by simp [dnodeOpenVnode, hn, emit, setErrno]⟩
  · by_cases hn : (env.tsdbCreateRepo s.trace (vnodeRootDir env.tsDirectory pVnodeCfg.cfg.vgId)
        { precision := pVnodeCfg.cfg.precision
          tsdbId := pVnodeCfg.vnode
          maxTables := pVnodeCfg.cfg.maxSessions
          daysPerFile := pVnodeCfg.cfg.daysPerFile
          minRowsPerFileBlock := -1
          maxRowsPerFileBlock := -1
          keep := -1
          maxCacheSize := -1 }).1 = NULL
    · exact ⟨(
        { precision := pVnodeCfg.cfg.precision
          tsdbId := pVnodeCfg.vnode
          maxTables := pVnodeCfg.cfg.maxSessions
          daysPerFile := pVnodeCfg.cfg.daysPerFile
          minRowsPerFileBlock := -1
          maxRowsPerFileBlock := -1
          keep := -1
          maxCacheSize := -1 } : STsdbCfg),
        [Event.dnodeAllocateWriteWorker, Event.dnodeAllocateReadWorker],
        by simp [dnodeCreateVnode, hn, emit, setErrno]⟩
    · exact ⟨(
        { precision := pVnodeCfg.cfg.precision
          tsdbId := pVnodeCfg.vnode
          maxTables := pVnodeCfg.cfg.maxSessions
          daysPerFile := pVnodeCfg.cfg.daysPerFile
          minRowsPerFileBlock := -1
          maxRowsPerFileBlock := -1
          keep := -1
          maxCacheSize := -1 } : STsdbCfg),
        [], by simp [dnodeCreateVnode, hn, emit, setErrno]⟩
  · simp [formatD, decimalOfNat]
  · simp [formatD, decimalOfNat, Nat.digitChar]
  · simp [formatD, decimalOfNat, Nat.digitChar]
  · simp [formatD, decimalOfNat, Nat.digitChar]
  · simp [formatD, decimalOfNat, Nat.digitChar]
  · intro dir a b h
    exact vnodeRootDir_inj dir a b h

end Dnode
